import Mathlib

/-!
A shallow embedding of the moosez batch-segmentation tool (sources:
`moosez/moosez.py`, `moosez/predict.py`, `moosez/resources.py`).

The pure parts (the `MODELS` registry, `expected_modality`,
`map_model_name_to_task_number`, command construction) are translated directly.
Side-effecting code is embedded as explicit effect traces (`Effect`), and the
child process's exit status enters as an explicit parameter where it matters.
Helper modules that are not among the shown sources (`display`, `download`,
`file_utilities`, `input_validation`, `constants`) appear either as trace
parameters or, where a claim depends on them, as definitions modelled from the
spec (marked as such in their doc comments).
-/

namespace Moosez

/-- The value of a non-`None` `limit_fov` entry in the `MODELS` registry
(resources.py): a field-of-view crop relationship naming another model.
`inference_fov_intensities` is an int or a list of ints in the source; it is
embedded as a list, a singleton for the scalar case. -/
structure LimitFov where
  model_to_crop_from : String
  inference_fov_intensities : List Nat
  label_intensity_to_crop_from : Nat
  largest_component_only : Bool
deriving DecidableEq

/-- One value of the `MODELS` dictionary (resources.py lines 39-785).  A key
that is absent from a given entry (as in `clin_pt_fdg_tumor`, which carries only
`organ_indices` and `limit_fov`) is embedded as `none`.  Voxel spacings are the
exact rationals denoted by the source's decimal literals. -/
structure ModelDescriptor where
  url : Option String
  filename : Option String
  directory : Option String
  trainer : Option String
  voxel_spacing : Option (List ℚ)
  multilabel_prefix : Option String
  configuration : Option String
  planner : Option String
  organ_indices : List (Nat × String)
  limit_fov : Option LimitFov
deriving DecidableEq

/-- The `MODELS` dictionary embedded as an association list in insertion
order. -/
abbrev Registry := List (String × ModelDescriptor)
def MODELS : Registry := [
  ("clin_ct_lungs",
  {
    url := some "https://enhance-pet.s3.eu-central-1.amazonaws.com/moose/clin_ct_lungs_24062023.zip",
    filename := some "Dataset333_HMS3dlungs.zip",
    directory := some "Dataset333_HMS3dlungs",
    trainer := some "nnUNetTrainer_2000epochs_NoMirroring",
    voxel_spacing := some [1.5, 1.5, 1.5],
    multilabel_prefix := some "CT_Lungs_",
    configuration := some "3d_fullres",
    planner := some "nnUNetPlans",
    organ_indices := [
      (1, "lung_upper_lobe_left"),
      (2, "lung_lower_lobe_left"),
      (3, "lung_upper_lobe_right"),
      (4, "lung_middle_lobe_right"),
      (5, "lung_lower_lobe_right")],
    limit_fov := none }),
  ("clin_ct_organs",
  {
    url := some "https://enhance-pet.s3.eu-central-1.amazonaws.com/moose/clin_ct_organs_05082024.zip",
    filename := some "Dataset123_Organs.zip",
    directory := some "Dataset123_Organs",
    trainer := some "nnUNetTrainer_2000epochs_NoMirroring",
    voxel_spacing := some [1.5, 1.5, 1.5],
    multilabel_prefix := some "CT_Organs_",
    configuration := some "3d_fullres",
    planner := some "nnUNetPlans",
    organ_indices := [
      (1, "adrenal_gland_left"),
      (2, "adrenal_gland_right"),
      (3, "bladder"),
      (4, "brain"),
      (5, "gallbladder"),
      (6, "kidney_left"),
      (7, "kidney_right"),
      (8, "liver"),
      (9, "lung_lower_lobe_left"),
      (10, "lung_lower_lobe_right"),
      (11, "lung_middle_lobe_right"),
      (12, "lung_upper_lobe_left"),
      (13, "lung_upper_lobe_right"),
      (14, "pancreas"),
      (15, "spleen"),
      (16, "stomach"),
      (17, "thyroid_left"),
      (18, "thyroid_right"),
      (19, "trachea")],
    limit_fov := none }),
  ("preclin_mr_all",
  {
    url := some "https://enhance-pet.s3.eu-central-1.amazonaws.com/moose/preclin_mr_all_05122023.zip",
    filename := some "Dataset234_minimoose.zip",
    directory := some "Dataset234_minimoose",
    trainer := some "nnUNetTrainer",
    voxel_spacing := some [0.4000000059604645, 0.4000000059604645, 0.4000000059604645],
    multilabel_prefix := some "Preclin_MR_all_",
    configuration := some "3d_fullres",
    planner := some "nnUNetPlans",
    organ_indices := [
      (1, "Brain"),
      (2, "Liver"),
      (3, "Intestines"),
      (4, "Pancreas"),
      (5, "Thyroid"),
      (6, "Spleen"),
      (7, "Bladder"),
      (8, "OuterKidney"),
      (9, "InnerKidney"),
      (10, "HeartInside"),
      (11, "HeartOutside"),
      (12, "WAT Subcutaneous"),
      (13, "WAT Visceral"),
      (14, "BAT"),
      (15, "Muscle TF"),
      (16, "Muscle TB"),
      (17, "Muscle BB"),
      (18, "Muscle BF"),
      (19, "Aorta"),
      (20, "Lung"),
      (21, "Stomach")],
    limit_fov := none }),
  ("clin_ct_body",
  {
    url := some "https://enhance-pet.s3.eu-central-1.amazonaws.com/moose/clin_ct_body_27112023.zip",
    filename := some "Dataset001_body.zip",
    directory := some "Dataset001_body",
    trainer := some "nnUNetTrainer",
    voxel_spacing := some [5, 5, 5],
    multilabel_prefix := some "CT_Body_",
    configuration := some "3d_fullres",
    planner := some "nnUNetPlans",
    organ_indices := [
      (1, "Legs"),
      (2, "Body"),
      (3, "Head"),
      (4, "Arms")],
    limit_fov := none }),
  ("clin_ct_ribs",
  {
    url := some "https://enhance-pet.s3.eu-central-1.amazonaws.com/moose/clin_ct_ribs_11082024.zip",
    filename := some "Dataset444_Ribs.zip",
    directory := some "Dataset444_Ribs",
    trainer := some "nnUNetTrainer_2000epochs_NoMirroring",
    voxel_spacing := some [1.5, 1.5, 1.5],
    multilabel_prefix := some "CT_Ribs_",
    configuration := some "3d_fullres_big_patch",
    planner := some "nnUNetPlans",
    organ_indices := [
      (1, "rib_left_1"),
      (2, "rib_left_2"),
      (3, "rib_left_3"),
      (4, "rib_left_4"),
      (5, "rib_left_5"),
      (6, "rib_left_6"),
      (7, "rib_left_7"),
      (8, "rib_left_8"),
      (9, "rib_left_9"),
      (10, "rib_left_10"),
      (11, "rib_left_11"),
      (12, "rib_left_12"),
      (13, "rib_left_13"),
      (14, "rib_right_1"),
      (15, "rib_right_2"),
      (16, "rib_right_3"),
      (17, "rib_right_4"),
      (18, "rib_right_5"),
      (19, "rib_right_6"),
      (20, "rib_right_7"),
      (21, "rib_right_8"),
      (22, "rib_right_9"),
      (23, "rib_right_10"),
      (24, "rib_right_11"),
      (25, "rib_right_12"),
      (26, "rib_right_13"),
      (27, "sternum")],
    limit_fov := none }),
  ("clin_ct_muscles",
  {
    url := some "https://enhance-pet.s3.eu-central-1.amazonaws.com/moose/clin_ct_muscles_09082024.zip",
    filename := some "Dataset555_Muscles.zip",
    directory := some "Dataset555_Muscles",
    trainer := some "nnUNetTrainer_2000epochs_NoMirroring",
    voxel_spacing := some [1.5, 1.5, 1.5],
    multilabel_prefix := some "CT_Muscles_",
    configuration := some "3d_fullres",
    planner := some "nnUNetPlans",
    organ_indices := [
      (1, "autochthon_left"),
      (2, "autochthon_right"),
      (3, "gluteus_maximus_left"),
      (4, "gluteus_maximus_right"),
      (5, "gluteus_medius_left"),
      (6, "gluteus_medius_right"),
      (7, "gluteus_minimus_left"),
      (8, "gluteus_minimus_right"),
      (9, "iliopsoas_left"),
      (10, "iliopsoas_right")],
    limit_fov := none }),
  ("clin_ct_peripheral_bones",
  {
    url := some "https://enhance-pet.s3.eu-central-1.amazonaws.com/moose/clin_ct_peripheral_bones_05082024.zip",
    filename := some "Dataset666_Peripheral-Bones.zip",
    directory := some "Dataset666_Peripheral-Bones",
    trainer := some "nnUNetTrainer_2000epochs_NoMirroring",
    voxel_spacing := some [1.5, 1.5, 1.5],
    multilabel_prefix := some "CT_Peripheral-Bones_",
    configuration := some "3d_fullres",
    planner := some "nnUNetPlans",
    organ_indices := [
      (1, "carpal_left"),
      (2, "carpal_right"),
      (3, "clavicle_left"),
      (4, "clavicle_right"),
      (5, "femur_left"),
      (6, "femur_right"),
      (7, "fibula_left"),
      (8, "fibula_right"),
      (9, "fingers_left"),
      (10, "fingers_right"),
      (11, "humerus_left"),
      (12, "humerus_right"),
      (13, "metacarpal_left"),
      (14, "metacarpal_right"),
      (15, "metatarsal_left"),
      (16, "metatarsal_right"),
      (17, "patella_left"),
      (18, "patella_right"),
      (19, "radius_left"),
      (20, "radius_right"),
      (21, "scapula_left"),
      (22, "scapula_right"),
      (23, "skull"),
      (24, "tarsal_left"),
      (25, "tarsal_right"),
      (26, "tibia_left"),
      (27, "tibia_right"),
      (28, "toes_left"),
      (29, "toes_right"),
      (30, "ulna_left"),
      (31, "ulna_right")],
    limit_fov := none }),
  ("clin_ct_fat",
  {
    url := some "https://enhance-pet.s3.eu-central-1.amazonaws.com/moose/clin_ct_fat_31082023.zip",
    filename := some "Dataset777_Fat.zip",
    directory := some "Dataset777_Fat",
    trainer := some "nnUNetTrainer_2000epochs_NoMirroring",
    voxel_spacing := some [1.5, 1.5, 1.5],
    multilabel_prefix := some "CT_Fat_",
    configuration := some "3d_fullres",
    planner := some "nnUNetPlans",
    organ_indices := [
      (1, "spinal_chord"),
      (2, "skeletal_muscle"),
      (3, "subcutaneous_fat"),
      (4, "visceral_fat"),
      (5, "thoracic_fat"),
      (6, "eyes"),
      (7, "testicles"),
      (8, "prostate")],
    limit_fov := none }),
  ("clin_ct_vertebrae",
  {
    url := some "https://enhance-pet.s3.eu-central-1.amazonaws.com/moose/clin_ct_vertebrae_11082024.zip",
    filename := some "Dataset111_Vertebrae.zip",
    directory := some "Dataset111_Vertebrae",
    trainer := some "nnUNetTrainer_2000_epochs_DA5NoMirroring",
    voxel_spacing := some [1.5, 1.5, 1.5],
    multilabel_prefix := some "CT_Vertebrae_",
    configuration := some "3d_fullres",
    planner := some "nnUNetPlans",
    organ_indices := [
      (1, "vertebra_C1"),
      (2, "vertebra_C2"),
      (3, "vertebra_C3"),
      (4, "vertebra_C4"),
      (5, "vertebra_C5"),
      (6, "vertebra_C6"),
      (7, "vertebra_C7"),
      (8, "vertebra_T1"),
      (9, "vertebra_T2"),
      (10, "vertebra_T3"),
      (11, "vertebra_T4"),
      (12, "vertebra_T5"),
      (13, "vertebra_T6"),
      (14, "vertebra_T7"),
      (15, "vertebra_T8"),
      (16, "vertebra_T9"),
      (17, "vertebra_T10"),
      (18, "vertebra_T11"),
      (19, "vertebra_T12"),
      (20, "vertebra_L1"),
      (21, "vertebra_L2"),
      (22, "vertebra_L3"),
      (23, "vertebra_L4"),
      (24, "vertebra_L5"),
      (25, "vertebra_L6"),
      (26, "hip_left"),
      (27, "hip_right"),
      (28, "sacrum")],
    limit_fov := none }),
  ("clin_ct_cardiac",
  {
    url := some "https://enhance-pet.s3.eu-central-1.amazonaws.com/moose/clin_ct_cardiac_09082024.zip",
    filename := some "Dataset888_Cardiac.zip",
    directory := some "Dataset888_Cardiac",
    trainer := some "nnUNetTrainer_2000epochs_NoMirroring",
    voxel_spacing := some [1.5, 1.5, 1.5],
    multilabel_prefix := some "CT_Cardiac_",
    configuration := some "3d_fullres",
    planner := some "nnUNetPlans",
    organ_indices := [
      (1, "heart_myocardium"),
      (2, "heart_atrium_left"),
      (3, "heart_atrium_right"),
      (4, "heart_ventricle_left"),
      (5, "heart_ventricle_right"),
      (6, "aorta"),
      (7, "iliac_artery_left"),
      (8, "iliac_artery_right"),
      (9, "iliac_vena_left"),
      (10, "iliac_vena_right"),
      (11, "inferior_vena_cava"),
      (12, "portal_splenic_vein"),
      (13, "pulmonary_artery")],
    limit_fov := none }),
  ("clin_ct_digestive",
  {
    url := some "https://enhance-pet.s3.eu-central-1.amazonaws.com/moose/clin_ct_digestive_10092023.zip",
    filename := some "Dataset999_Digestive.zip",
    directory := some "Dataset999_Digestive",
    trainer := some "nnUNetTrainer_2000epochs_NoMirroring",
    voxel_spacing := some [1.5, 1.5, 1.5],
    multilabel_prefix := some "CT_Digestive_",
    configuration := some "3d_fullres",
    planner := some "nnUNetPlans",
    organ_indices := [
      (1, "esophagus"),
      (2, "trachea"),
      (3, "small_bowel"),
      (4, "duodenum"),
      (5, "colon"),
      (6, "urinary_bladder"),
      (7, "face")],
    limit_fov := none }),
  ("preclin_ct_legs",
  {
    url := some "https://enhance-pet.s3.eu-central-1.amazonaws.com/moose/preclin_ct_legs_05122023.zip",
    filename := some "Dataset256_Preclin_leg_muscles.zip",
    directory := some "Dataset256_Preclin_leg_muscles",
    trainer := some "nnUNetTrainerNoMirroring",
    voxel_spacing := some [0.18000000715255737, 0.18000000715255737, 0.18000000715255737],
    multilabel_prefix := some "Preclin_CT_legs_",
    configuration := some "3d_fullres",
    planner := some "nnUNetPlans",
    organ_indices := [
      (1, "right_leg_muscle"),
      (2, "left_leg_muscle")],
    limit_fov := none }),
  ("clin_ct_all_bones_v1",
  {
    url := some "https://enhance-pet.s3.eu-central-1.amazonaws.com/moose/clin_ct_all_bones_25102023.zip",
    filename := some "Dataset600_Original_bones.zip",
    directory := some "Dataset600_Original_bones",
    trainer := some "nnUNetTrainer_2000epochs",
    voxel_spacing := some [1.5, 1.5, 1.5],
    multilabel_prefix := some "Clin_CT_all_bones_",
    configuration := some "3d_fullres",
    planner := some "nnUNetPlans",
    organ_indices := [
      (1, "carpal"),
      (2, "clavicle"),
      (3, "femur"),
      (4, "fibula"),
      (5, "humerus"),
      (6, "metacarpal"),
      (7, "metatarsal"),
      (8, "patella"),
      (9, "pelvis"),
      (10, "fingers"),
      (11, "radius"),
      (12, "ribcage"),
      (13, "scapula"),
      (14, "skull"),
      (15, "spine"),
      (16, "sternum"),
      (17, "tarsal"),
      (18, "tibia"),
      (19, "toes"),
      (20, "ulna")],
    limit_fov := none }),
  ("clin_ct_PUMA",
  {
    url := some "https://enhance-pet.s3.eu-central-1.amazonaws.com/moose/clin_ct_PUMA_1k_23052024.zip",
    filename := some "Dataset002_PUMA.zip",
    directory := some "Dataset002_PUMA",
    trainer := some "nnUNetTrainer_2000epochs_NoMirroring",
    voxel_spacing := some [1.5, 1.5, 1.5],
    multilabel_prefix := some "Clin_CT_PUMA_",
    configuration := some "3d_fullres",
    planner := some "nnUNetPlans",
    organ_indices := [
      (0, "background"),
      (1, "Spleen"),
      (2, "Kidneys"),
      (3, "Gallbladder"),
      (4, "Liver"),
      (5, "Stomach"),
      (6, "Pancreas"),
      (7, "Adrenal_glands"),
      (8, "Lungs"),
      (9, "Heart_myocardium"),
      (10, "Heart_atrium_left"),
      (11, "Heart_ventricle_left"),
      (12, "Heart_atrium_right"),
      (13, "Heart_ventricle_right"),
      (14, "Pulmonary_artery"),
      (15, "Aorta"),
      (16, "Inferior_vena_cava"),
      (17, "Esophagus"),
      (18, "Trachea"),
      (19, "Digestive"),
      (20, "Brain"),
      (21, "Skeleton"),
      (22, "Muscles"),
      (23, "Bladder")],
    limit_fov := none }),
  ("clin_pt_fdg_brain_v1",
  {
    url := some "https://enhance-pet.s3.eu-central-1.amazonaws.com/moose/clin_fdg_pt_brain_v1_17112023.zip",
    filename := some "Dataset100_Brain_v1.zip",
    directory := some "Dataset100_Brain_v1",
    trainer := some "nnUNetTrainer_2000epochs_NoMirroring",
    voxel_spacing := some [2.03125, 2.0862598419189453, 2.0862600803375244],
    multilabel_prefix := some "Clin_PT_FDG_brain_",
    configuration := some "3d_fullres",
    planner := some "nnUNetPlans",
    organ_indices := [
      (0, "background"),
      (1, "R-Hippocampus"),
      (2, "L-Hippocampus"),
      (3, "R-Amygdala"),
      (4, "L-Amygdala"),
      (5, "R-Anterior-temporal-lobe-medial-part"),
      (6, "L-Anterior-temporal-lobe-medial-part"),
      (7, "R-Anterior-temporal-lobe-lateral-part"),
      (8, "L-Anterior-temporal-lobe-lateral-part"),
      (9, "R-Parahippocampal-and-ambient-gyri"),
      (10, "L-Parahippocampal-and-ambient-gyri"),
      (11, "R-Superior-temporal-gyrus-posterior-part"),
      (12, "L-Superior-temporal-gyrus-posterior-part"),
      (13, "R-Middle and inferior temporal gyrus"),
      (14, "L-Middle and inferior temporal gyrus"),
      (15, "R-Fusiform gyrus"),
      (16, "L-Fusiform gyrus"),
      (17, "R-Cerebellum"),
      (18, "L-Cerebellum"),
      (19, "Brainstem"),
      (20, "L-Insula"),
      (21, "R-Insula"),
      (22, "L-Lateral remainder of occipital lobe"),
      (23, "R-Lateral remainder of occipital lobe"),
      (24, "L-Cingulate gyrus gyrus cinguli anterior part"),
      (25, "R-Cingulate gyrus gyrus cinguli anterior part"),
      (26, "L-Cingulate gyrus gyrus cinguli posterior part"),
      (27, "R-Cingulate gyrus gyrus cinguli posterior part"),
      (28, "L-Middle frontal gyrus"),
      (29, "R-Middle frontal gyrus"),
      (30, "L-Posterior temporal lobe"),
      (31, "R-Posterior temporal lobe"),
      (32, "L-Inferiolateral remainder of parietal lobe"),
      (33, "R-Inferiolateral remainder of parietal lobe"),
      (34, "L-Caudate nucleus"),
      (35, "R-Caudate nucleus"),
      (36, "L-Nucleus accumbens"),
      (37, "R-Nucleus accumbens"),
      (38, "L-Putamen"),
      (39, "R-Putamen"),
      (40, "L-Thalamus"),
      (41, "R-Thalamus"),
      (42, "L-Pallidum"),
      (43, "R-Pallidum"),
      (44, "Corpus callosum"),
      (45, "R-Lateral ventricle excluding temporal horn"),
      (46, "L-Lateral ventricle excluding temporal horn"),
      (47, "R-Lateral ventricle, temporal horn"),
      (48, "L-Lateral ventricle, temporal horn"),
      (49, "Third ventricle"),
      (50, "L-Precentral gyrus"),
      (51, "R-Precentral gyrus"),
      (52, "L-Straight gyrus"),
      (53, "R-Straight gyrus"),
      (54, "L-Anterior orbital gyrus"),
      (55, "R-Anterior orbital gyrus"),
      (56, "L-Inferior frontal gyrus"),
      (57, "R-Inferior frontal gyrus"),
      (58, "L-Superior frontal gyrus"),
      (59, "R-Superior frontal gyrus"),
      (60, "L-Postcentral gyrus"),
      (61, "R-Postcentral gyrus"),
      (62, "L-Superior parietal gyrus"),
      (63, "R-Superior parietal gyrus"),
      (64, "L-Lingual gyrus"),
      (65, "R-Lingual gyrus"),
      (66, "L-Cuneus"),
      (67, "R-Cuneus"),
      (68, "L-Medial orbital gyrus"),
      (69, "R-Medial orbital gyrus"),
      (70, "L-Lateral orbital gyrus"),
      (71, "R-Lateral orbital gyrus"),
      (72, "L-Posterior orbital gyrus"),
      (73, "R-Posterior orbital gyrus"),
      (74, "L-Substantia nigra"),
      (75, "R-Substantia nigra"),
      (76, "L-Subgenual frontal cortex"),
      (77, "R-Subgenual frontal cortex"),
      (78, "L-Subcallosal area"),
      (79, "R-Subcallosal area"),
      (80, "L-Pre-subgenual frontal cortex"),
      (81, "R-Pre-subgenual frontal cortex"),
      (82, "L-Superior temporal gyrus anterior part"),
      (83, "R-Superior temporal gyrus anterior part")],
    limit_fov := none }),
  ("clin_ct_ALPACA",
  {
    url := some "https://enhance-pet.s3.eu-central-1.amazonaws.com/moose/clin_ct_ALPACA.zip",
    filename := some "Dataset080_Alpaca.zip",
    directory := some "Dataset080_Alpaca",
    trainer := some "nnUNetTrainer_2000epochs_NoMirroring",
    voxel_spacing := some [1.5, 1.5, 1.5],
    multilabel_prefix := some "Clin_CT_ALPACA_",
    configuration := some "3d_fullres",
    planner := some "nnUNetPlans",
    organ_indices := [
      (1, "heart_ventricle_left"),
      (2, "heart_ventricle_right"),
      (3, "pulmonary_artery"),
      (4, "iliac_artery_left"),
      (5, "iliac_artery_right"),
      (6, "aorta")],
    limit_fov := none }),
  ("clin_ct_PUMA4",
  {
    url := some "https://enhance-pet.s3.eu-central-1.amazonaws.com/moose/clin_ct_PUMA4_06032024.zip",
    filename := some "Dataset003_PUMA4.zip",
    directory := some "Dataset003_PUMA4",
    trainer := some "nnUNetTrainer_2000epochs",
    voxel_spacing := some [4, 4, 4],
    multilabel_prefix := some "Clin_CT_PUMA4_",
    configuration := some "3d_fullres",
    planner := some "nnUNetPlans",
    organ_indices := [
      (0, "background"),
      (1, "Spleen"),
      (2, "Kidneys"),
      (3, "Gallbladder"),
      (4, "Liver"),
      (5, "Stomach"),
      (6, "Pancreas"),
      (7, "Adrenal Glands"),
      (8, "Lungs"),
      (9, "Heart"),
      (10, "Vessels"),
      (11, "Esophagus"),
      (12, "Trachea"),
      (13, "Digestive"),
      (14, "Brain"),
      (15, "Skeleton"),
      (16, "Muscles"),
      (17, "Bladder"),
      (18, "Filler")],
    limit_fov := none }),
  ("clin_ct_liver_segments",
  {
    url := some "https://enhance-pet.s3.eu-central-1.amazonaws.com/moose/clin_ct_liver_segments_10092024.zip",
    filename := some "Dataset134_Couinaud.zip",
    directory := some "Dataset134_Couinaud",
    trainer := some "nnUNetTrainer_2000epochs_NoMirroring",
    voxel_spacing := some [1.5, 1.5, 1.5],
    multilabel_prefix := some "Clin_CT_liver_segments_",
    configuration := some "3d_fullres",
    planner := some "nnUNetPlans",
    organ_indices := [
      (1, "segment_I"),
      (2, "segment_II"),
      (3, "segment_III"),
      (4, "segment_IV"),
      (5, "segment_V"),
      (6, "segment_VI"),
      (7, "segment_VII"),
      (8, "segment_VIII")],
    limit_fov := some {
      model_to_crop_from := "clin_ct_fast_organs",
      inference_fov_intensities := [8],
      label_intensity_to_crop_from := 8,
      largest_component_only := false } }),
  ("clin_ct_fast_organs",
  {
    url := some "https://enhance-pet.s3.eu-central-1.amazonaws.com/moose/clin_ct_organs_6_02092024.zip",
    filename := some "Dataset145_Fast_organs.zip",
    directory := some "Dataset145_Fast_organs",
    trainer := some "nnUNetTrainer_2000epochs",
    voxel_spacing := some [6, 6, 6],
    multilabel_prefix := some "Clin_CT_fast_organs_",
    configuration := some "3d_fullres",
    planner := some "nnUNetPlans",
    organ_indices := [
      (1, "adrenal_gland_left"),
      (2, "adrenal_gland_right"),
      (3, "bladder"),
      (4, "brain"),
      (5, "gallbladder"),
      (6, "kidney_left"),
      (7, "kidney_right"),
      (8, "liver"),
      (9, "lung_lower_lobe_left"),
      (10, "lung_lower_lobe_right"),
      (11, "lung_middle_lobe_right"),
      (12, "lung_upper_lobe_left"),
      (13, "lung_upper_lobe_right"),
      (14, "pancreas"),
      (15, "spleen"),
      (16, "stomach"),
      (17, "thyroid_left"),
      (18, "thyroid_right"),
      (19, "trachea")],
    limit_fov := none }),
  ("clin_ct_aorta",
  {
    url := some "https://enhance-pet.s3.eu-central-1.amazonaws.com/moose/clin_ct_aorta_02092024.zip",
    filename := some "Dataset321_Aorta.zip",
    directory := some "Dataset321_Aorta",
    trainer := some "nnUNetTrainer_2000epochs_NoMirroring",
    voxel_spacing := some [1.5, 1.5, 1.5],
    multilabel_prefix := some "Clin_CT_aorta_",
    configuration := some "3d_fullres",
    planner := some "nnUNetPlans",
    organ_indices := [
      (1, "zone_0"),
      (2, "innominate"),
      (3, "zone_1"),
      (4, "left_common_carotid"),
      (5, "zone_2"),
      (6, "left_subclavian_artery"),
      (7, "zone_3"),
      (8, "zone_4"),
      (9, "zone_5"),
      (10, "zone_6"),
      (11, "celiac_artery"),
      (12, "zone_7"),
      (13, "sma"),
      (14, "zone_8"),
      (15, "right_renal_artery"),
      (16, "left_renal_artery"),
      (17, "zone_9"),
      (18, "right_common_iliac_artery"),
      (19, "left_common_iliac_artery"),
      (20, "right_internal_iliac_artery"),
      (21, "left_internal_iliac_artery"),
      (22, "right_external_iliac_artery"),
      (23, "left_external_iliac_artery")],
    limit_fov := some {
      model_to_crop_from := "clin_ct_fast_cardiac",
      inference_fov_intensities := [6],
      label_intensity_to_crop_from := 6,
      largest_component_only := false } }),
  ("clin_pt_fdg_tumor",
  {
    url := none,
    filename := none,
    directory := none,
    trainer := none,
    voxel_spacing := none,
    multilabel_prefix := none,
    configuration := none,
    planner := none,
    organ_indices := [
      (1, "tumor")],
    limit_fov := none }),
  ("clin_ct_body_composition",
  {
    url := some "https://enhance-pet.s3.eu-central-1.amazonaws.com/moose/clin_ct_body_composition_05092024.zip",
    filename := some "Dataset778_Body_composition.zip",
    directory := some "Dataset778_Body_composition",
    trainer := some "nnUNetTrainer_2000epochs",
    voxel_spacing := some [1.5, 1.5, 1.5],
    multilabel_prefix := some "Clin_CT_body_composition_",
    configuration := some "3d_fullres",
    planner := some "nnUNetPlans",
    organ_indices := [
      (1, "skeletal_muscle"),
      (2, "subcutaneous_fat"),
      (3, "visceral_fat")],
    limit_fov := some {
      model_to_crop_from := "clin_ct_fast_vertebrae",
      inference_fov_intensities := [20, 24],
      label_intensity_to_crop_from := 22,
      largest_component_only := true } }),
  ("clin_ct_fast_vertebrae",
  {
    url := some "https://enhance-pet.s3.eu-central-1.amazonaws.com/moose/clin_ct_vertebrae3_10092024.zip",
    filename := some "Dataset112_FastVertebrae.zip",
    directory := some "Dataset112_FastVertebrae",
    trainer := some "nnUNetTrainer_2000_epochs_DA5NoMirroring",
    voxel_spacing := some [3, 3, 3],
    multilabel_prefix := some "Clin_CT_fast_vertebrae_",
    configuration := some "3d_fullres",
    planner := some "nnUNetPlans",
    organ_indices := [
      (1, "vertebra_C1"),
      (2, "vertebra_C2"),
      (3, "vertebra_C3"),
      (4, "vertebra_C4"),
      (5, "vertebra_C5"),
      (6, "vertebra_C6"),
      (7, "vertebra_C7"),
      (8, "vertebra_T1"),
      (9, "vertebra_T2"),
      (10, "vertebra_T3"),
      (11, "vertebra_T4"),
      (12, "vertebra_T5"),
      (13, "vertebra_T6"),
      (14, "vertebra_T7"),
      (15, "vertebra_T8"),
      (16, "vertebra_T9"),
      (17, "vertebra_T10"),
      (18, "vertebra_T11"),
      (19, "vertebra_T12"),
      (20, "vertebra_L1"),
      (21, "vertebra_L2"),
      (22, "vertebra_L3"),
      (23, "vertebra_L4"),
      (24, "vertebra_L5"),
      (25, "vertebra_L6"),
      (26, "hip_left"),
      (27, "hip_right"),
      (28, "sacrum")],
    limit_fov := none }),
  ("clin_ct_fast_cardiac",
  {
    url := some "https://enhance-pet.s3.eu-central-1.amazonaws.com/moose/clin_ct_cardiac3_10092024.zip",
    filename := some "Dataset890_FastCardiac.zip",
    directory := some "Dataset890_FastCardiac",
    trainer := some "nnUNetTrainer_2000epochs_NoMirroring",
    voxel_spacing := some [3, 3, 3],
    multilabel_prefix := some "CT_Fast_Cardiac_",
    configuration := some "3d_fullres",
    planner := some "nnUNetPlans",
    organ_indices := [
      (1, "heart_myocardium"),
      (2, "heart_atrium_left"),
      (3, "heart_atrium_right"),
      (4, "heart_ventricle_left"),
      (5, "heart_ventricle_right"),
      (6, "aorta"),
      (7, "iliac_artery_left"),
      (8, "iliac_artery_right"),
      (9, "iliac_vena_left"),
      (10, "iliac_vena_right"),
      (11, "inferior_vena_cava"),
      (12, "portal_splenic_vein"),
      (13, "pulmonary_artery")],
    limit_fov := none })
]
def expected_modality_table : List (String × List (String × String)) := [
  ("clin_ct_lungs", [("Imaging", "Clinical"), ("Modality", "CT"), ("Tissue of interest", "Lungs")]),
  ("clin_ct_organs", [("Imaging", "Clinical"), ("Modality", "CT"), ("Tissue of interest", "Organs")]),
  ("clin_ct_body", [("Imaging", "Clinical"), ("Modality", "CT"), ("Tissue of interest", "Body, Arms, legs, head")]),
  ("preclin_mr_all", [("Imaging", "Pre-clinical"), ("Modality", "MR"), ("Tissue of interest", "All regions")]),
  ("clin_ct_ribs", [("Imaging", "Clinical"), ("Modality", "CT"), ("Tissue of interest", "Ribs")]),
  ("clin_ct_muscles", [("Imaging", "Clinical"), ("Modality", "CT"), ("Tissue of interest", "Muscles")]),
  ("clin_ct_peripheral_bones", [("Imaging", "Clinical"), ("Modality", "CT"), ("Tissue of interest", "Peripheral Bones")]),
  ("clin_ct_fat", [("Imaging", "Clinical"), ("Modality", "CT"), ("Tissue of interest", "Fat")]),
  ("clin_ct_vertebrae", [("Imaging", "Clinical"), ("Modality", "CT"), ("Tissue of interest", "Vertebrae")]),
  ("clin_ct_cardiac", [("Imaging", "Clinical"), ("Modality", "CT"), ("Tissue of interest", "Cardiac")]),
  ("clin_ct_digestive", [("Imaging", "Clinical"), ("Modality", "CT"), ("Tissue of interest", "Digestive")]),
  ("preclin_ct_legs", [("Imaging", "Pre-clinical"), ("Modality", "CT"), ("Tissue of interest", "Legs")]),
  ("clin_ct_all_bones_v1", [("Imaging", "Clinical"), ("Modality", "CT"), ("Tissue of interest", "All bones")]),
  ("clin_ct_PUMA", [("Imaging", "Clinical"), ("Modality", "CT"), ("Tissue of interest", "PUMA tissues")]),
  ("clin_pt_fdg_brain_v1", [("Imaging", "Clinical"), ("Modality", "PT"), ("Tissue of interest", "Brain regions")]),
  ("clin_ct_ALPACA", [("Imaging", "Clinical"), ("Modality", "CT"), ("Tissue of interest", "ALPACA tissues")]),
  ("clin_ct_PUMA4", [("Imaging", "Clinical"), ("Modality", "CT"), ("Tissue of interest", "PUMA tissues")]),
  ("clin_ct_liver_segments", [("Imaging", "Clinical"), ("Modality", "CT"), ("Tissue of interest", "Liver segments")]),
  ("clin_ct_fast_organs", [("Imaging", "Clinical"), ("Modality", "CT"), ("Tissue of interest", "Organs")]),
  ("clin_ct_aorta", [("Imaging", "Clinical"), ("Modality", "CT"), ("Tissue of interest", "Aorta segments")]),
  ("clin_ct_body_composition", [("Imaging", "Clinical"), ("Modality", "CT"), ("Tissue of interest", "Body composition on the L3 vertebra region")])
]

/-- `AVAILABLE_MODELS = MODELS.keys()` (resources.py line 787). -/
def AVAILABLE_MODELS : List String := MODELS.map Prod.fst

/-- Python dictionary lookup in a registry embedded as an association list
(first match; the keys of `MODELS` are pairwise distinct). -/
def registry_find : Registry → String → Option ModelDescriptor
  | [], _ => none
  | (k, d) :: rest, n => if k = n then some d else registry_find rest n

/-- `resources.expected_modality` (resources.py lines 797-833): looks the model
name up in `expected_modality_table`; on a hit it returns the entry with the
`Model name` key appended (Python dict insertion order is preserved by the
association list), otherwise it returns the error dictionary. -/
def expected_modality (model_name : String) : List (String × String) :=
  match expected_modality_table.find? (fun p => p.1 == model_name) with
  | some p => p.2 ++ [("Model name", model_name)]
  | none => [("Error", "Requested model is not available. Please check the model name.")]

/-- `predict.map_model_name_to_task_number` (predict.py lines 27-58).  The
raised exception is embedded as `Except.error` carrying the message text. -/
def map_model_name_to_task_number (model_name : String) : Except String Nat :=
  if model_name = "clin_ct_bones" then .ok 201
  else if model_name = "clin_ct_ribs" then .ok 202
  else if model_name = "clin_ct_vertebrae" then .ok 203
  else if model_name = "clin_ct_muscles" then .ok 204
  else if model_name = "clin_ct_lungs" then .ok 205
  else if model_name = "clin_ct_fat" then .ok 206
  else if model_name = "clin_ct_vessels" then .ok 207
  else if model_name = "clin_ct_organs" then .ok 208
  else if model_name = "clin_pt_fdg_tumor" then .ok 209
  else if model_name = "clin_ct_all" then .ok 210
  else if model_name = "clin_fdg_pt_ct_all" then .ok 211
  else if model_name = "preclin_mr_all" then .ok 212
  else .error ("Error: The model name \x27" ++ model_name ++ "\x27 is not valid.")

/-- The `choices` list of the `--model_name` CLI argument (moosez.py lines
40-52). -/
def cli_model_choices : List String :=
  ["clin_ct_bones", "clin_ct_ribs", "clin_ct_vertebrae", "clin_ct_muscles",
   "clin_ct_lungs", "clin_ct_fat", "clin_ct_vessels", "clin_ct_organs",
   "clin_pt_fdg_tumor", "clin_ct_all", "clin_fdg_pt_ct_all", "preclin_mr_all"]

/-- Observable side effects of the embedded operations.
`setResultsFolderEnv` is the assignment of the `RESULTS_FOLDER` environment
variable to `constants.NNUNET_RESULTS_FOLDER` (predict.py line 71; the
`constants` module is not among the shown sources and its value is irrelevant to
every claim). -/
inductive Effect where
  | print (s : String)
  | logWrite (s : String)
  | downloadModel (url : String) (model_path : String)
  | moveFile (src : String) (dst : String)
  | copyFile (src : String) (dst : String)
  | setResultsFolderEnv
  | runSubprocess (cmd : String)
deriving DecidableEq

/-- `true` exactly on external-process invocations. -/
def Effect.is_subprocess : Effect → Bool
  | .runSubprocess _ => true
  | _ => false

/-- `true` exactly on console prints and log writes. -/
def Effect.is_print_or_log : Effect → Bool
  | .print _ => true
  | .logWrite _ => true
  | _ => false

/-- The configuration name passed after `-m` by `predict`: the literal
`3d_fullres` hard-coded in the f-string (predict.py line 72), factored out here
so that theorems can name it. -/
def predict_m_argument : String := "3d_fullres"

/-- The f-string `predict` passes to `subprocess.run` (predict.py line 72). -/
def nnUNet_predict_command (input_dir output_dir : String) (task_number : Nat) : String :=
  "nnUNet_predict -i " ++ input_dir ++ " -o " ++ output_dir ++ " -t " ++
    toString task_number ++ " -m " ++ predict_m_argument ++ " -f all"

/-- Effect trace of `predict` (predict.py lines 61-73): derive the task number
(propagating the exception from `map_model_name_to_task_number`), set
`RESULTS_FOLDER`, and run `nnUNet_predict` as an external process. -/
def predict_effects (model_name input_dir output_dir : String) :
    Except String (List Effect) :=
  match map_model_name_to_task_number model_name with
  | .error e => .error e
  | .ok task_number =>
      .ok [Effect.setResultsFolderEnv,
           Effect.runSubprocess (nnUNet_predict_command input_dir output_dir task_number)]

/-- The result object of `subprocess.run`. -/
structure CompletedProcess where
  returncode : Int
deriving DecidableEq

/-- The exit-status semantics of `subprocess.run` on a command: with
`check=True` a non-zero child exit raises `CalledProcessError` (embedded as
`Except.error`); otherwise the `CompletedProcess` carrying the code is
returned.  `predict` does not pass `check`, so `check` is `false` there. -/
def subprocess_run (_cmd : String) (check : Bool) (child_exit : Int) :
    Except Int CompletedProcess :=
  if check && child_exit != 0 then .error child_exit else .ok ⟨child_exit⟩

/-- Return-value view of `predict` (predict.py lines 61-73) with the child
process's exit code made an explicit parameter: the `CompletedProcess` returned
by `subprocess.run` is discarded and `predict` returns `None` (embedded as
`Option.none` in the success payload: no exit code is surfaced to the
caller). -/
def predict_with_exit (model_name input_dir output_dir : String) (child_exit : Int) :
    Except String (Option Int) :=
  match map_model_name_to_task_number model_name with
  | .error e => .error e
  | .ok task_number =>
      match subprocess_run (nnUNet_predict_command input_dir output_dir task_number)
          false child_exit with
      | .error c => .error (toString c)
      | .ok _ => .ok none

/-- The loop body of `run_prediction` (predict.py lines 91-92): `predict` once
per pair, sequentially, an exception aborting the remainder. -/
def run_prediction_loop (model_name : String) :
    List (String × String) → Except String (List Effect)
  | [] => .ok []
  | p :: ps =>
      match predict_effects model_name p.1 p.2 with
      | .error e => .error e
      | .ok es =>
          match run_prediction_loop model_name ps with
          | .error e => .error e
          | .ok rest => .ok (es ++ rest)

/-- `predict.run_prediction` (predict.py lines 76-93): a plain loop over
`zip(input_dirs, output_dirs)` calling `predict` on each pair in order, followed
by the spinner success message.  The `threading` import of predict.py is unused
by the source. -/
def run_prediction (model_name : String) (input_dirs output_dirs : List String) :
    Except String (List Effect) :=
  match run_prediction_loop model_name (input_dirs.zip output_dirs) with
  | .error e => .error e
  | .ok es => .ok (es ++ [Effect.print "Prediction complete"])

/-- The RUN PREDICTION section closing `main` (moosez.py lines 134-143): three
prints and three log writes.  The comments announcing the segmentation run and
the push-back of results are followed by no code. -/
def run_prediction_section : List Effect :=
  [Effect.print "", Effect.print " RUNNING PREDICTION:", Effect.print "",
   Effect.logWrite " ", Effect.logWrite " RUNNING PREDICTION:", Effect.logWrite " "]

/-- Modelled from the spec: `download.model` (module `moosez.download`, absent
from the shown sources) "downloads model weights if absent" - it reads the
chosen model's registry entry (its URL) and fetches it into the model path.  It
does not read `limit_fov`. -/
def download_model_effects (R : Registry) (model_name model_path : String) : List Effect :=
  match registry_find R model_name with
  | some d => [Effect.downloadModel (d.url.getD "") model_path]
  | none => []

/-- Effect trace of `main` (moosez.py lines 34-143) as a function of the
registry.  The helper modules `display`, `file_utilities` and
`input_validation` are absent from the shown sources, so the effects of the
display/expectations phase (`pre_effects`), of the directory setup
(`setup_effects`) and of the input standardization (`standardize_effects`)
enter as parameters; `download.model` is modelled from the spec.  After the
standardization phase `main` emits only `run_prediction_section` and returns:
no prediction call occurs in the source. -/
def main_trace (R : Registry) (model_name model_path : String)
    (pre_effects setup_effects standardize_effects : List Effect) : List Effect :=
  pre_effects
    ++ download_model_effects R model_name model_path
    ++ setup_effects
    ++ standardize_effects
    ++ run_prediction_section

/-- Pointwise replacement of every `limit_fov` value of a registry: any two
registries that agree except on their `limit_fov` values are two overrides of
one base registry. -/
def override_limit_fov : Registry → (String → Option LimitFov) → Registry
  | [], _ => []
  | (k, d) :: rest, f => (k, { d with limit_fov := f k }) :: override_limit_fov rest f

/-- The observable outputs of one run of the program, with the module-level
`MODELS` registry made an explicit parameter.  The operations whose source never
reads `MODELS` (`predict`, `run_prediction`, `map_model_name_to_task_number`,
`expected_modality`) are the registry-free functions defined above. -/
structure RunOutputs where
  main_effects : List Effect
  single_prediction : Except String (List Effect)
  batch_prediction : Except String (List Effect)
  task_number : Except String Nat
  modality : List (String × String)

/-- One whole run: `main`, one `predict`, one `run_prediction` batch, the task
lookup and the modality lookup, as functions of the registry. -/
def program_run (R : Registry) (model_name model_path input_dir output_dir : String)
    (pre_effects setup_effects standardize_effects : List Effect)
    (input_dirs output_dirs : List String) : RunOutputs :=
  { main_effects := main_trace R model_name model_path pre_effects setup_effects standardize_effects
  , single_prediction := predict_effects model_name input_dir output_dir
  , batch_prediction := run_prediction model_name input_dirs output_dirs
  , task_number := map_model_name_to_task_number model_name
  , modality := expected_modality model_name }



/-! ## Helper lemmas -/

lemma registry_find_override (R : Registry) (f : String → Option LimitFov) (n : String) :
    registry_find (override_limit_fov R f) n
      = (registry_find R n).map (fun d => { d with limit_fov := f n }) := by
  induction R with
  | nil => rfl
  | cons hd tl ih =>
      obtain ⟨k, d⟩ := hd
      simp only [override_limit_fov, registry_find]
      by_cases h : k = n
      · subst h
        simp
      · simp [h, ih]

lemma download_model_effects_override (R : Registry) (f : String → Option LimitFov)
    (model_name model_path : String) :
    download_model_effects (override_limit_fov R f) model_name model_path
      = download_model_effects R model_name model_path := by
  simp only [download_model_effects, registry_find_override]
  cases registry_find R model_name <;> simp

lemma run_prediction_loop_eq (model_name : String) (task_number : Nat)
    (h : map_model_name_to_task_number model_name = .ok task_number) :
    ∀ ps : List (String × String),
      run_prediction_loop model_name ps
        = .ok (ps.flatMap (fun p =>
            [Effect.setResultsFolderEnv,
             Effect.runSubprocess (nnUNet_predict_command p.1 p.2 task_number)]))
  | [] => rfl
  | p :: ps => by
      simp [run_prediction_loop, predict_effects, h,
        run_prediction_loop_eq model_name task_number h ps]

/-! ## The claims -/

/-- C1: the claim says `main` executes the prediction step, resulting in one
`nnUNet_predict` subprocess invocation per moose-compliant subject.  The code
contradicts it (and its own comments announcing the segmentation run): the RUN
PREDICTION section of `main` consists of prints and log writes only, and
neither `run_prediction` nor `predict` is ever called, so a whole run whose
helper phases spawn no subprocess contains no subprocess invocation at all. -/
theorem main_trace_has_no_subprocess_invocation
    (pre_effects setup_effects standardize_effects : List Effect)
    (h1 : pre_effects.all (fun e => ! e.is_subprocess) = true)
    (h2 : setup_effects.all (fun e => ! e.is_subprocess) = true)
    (h3 : standardize_effects.all (fun e => ! e.is_subprocess) = true) :
    ((main_trace MODELS "clin_ct_organs" "/models" pre_effects setup_effects
        standardize_effects).all (fun e => ! e.is_subprocess)) = true := by
  simp only [main_trace, List.all_append, h1, h2, h3, Bool.true_and, Bool.and_true]
  decide

/-- Witness for C1 at empty helper traces. -/
theorem main_trace_has_no_subprocess_invocation_witness :
    ((main_trace MODELS "clin_ct_organs" "/models" [] [] []).all
        (fun e => ! e.is_subprocess)) = true :=
  main_trace_has_no_subprocess_invocation [] [] [] rfl rfl rfl

/-- C2 counterexample: with a non-zero child exit code (here 1), `predict`
still returns `None`: the exit code is discarded, not surfaced to the caller. -/
theorem predict_discards_exit_code_counterexample :
    predict_with_exit "clin_ct_organs" "/in" "/out" 1 = .ok none ∧
      predict_with_exit "clin_ct_organs" "/in" "/out" 1 ≠ .ok (some 1) := by
  refine ⟨rfl, ?_⟩
  simp [predict_with_exit, map_model_name_to_task_number, subprocess_run]

/-- C2 amended: `predict` has no failure handling at all - `subprocess.run` is
called without `check`, its `CompletedProcess` is discarded, and for every
valid model name and every child exit code `predict` returns `None`, so no exit
code (zero or not) reaches the caller. -/
theorem predict_returns_none_for_every_exit_code
    (model_name input_dir output_dir : String) (task_number : Nat) (child_exit : Int)
    (h : map_model_name_to_task_number model_name = .ok task_number) :
    predict_with_exit model_name input_dir output_dir child_exit = .ok none := by
  simp [predict_with_exit, h, subprocess_run]

/-- Witness for C2's amended theorem at `clin_ct_lungs` and exit code 7. -/
theorem predict_returns_none_for_every_exit_code_witness :
    predict_with_exit "clin_ct_lungs" "/a" "/b" 7 = .ok none :=
  predict_returns_none_for_every_exit_code "clin_ct_lungs" "/a" "/b" 205 7 rfl

/-- C3 counterexample: for `clin_ct_ribs` (task 202) the subprocess command
uses the hard-coded configuration `3d_fullres`, while the registry declares
`3d_fullres_big_patch` as that model's configuration. -/
theorem predict_configuration_counterexample :
    predict_effects "clin_ct_ribs" "/in" "/out"
        = .ok [Effect.setResultsFolderEnv,
               Effect.runSubprocess
                 "nnUNet_predict -i /in -o /out -t 202 -m 3d_fullres -f all"] ∧
      (registry_find MODELS "clin_ct_ribs").map (fun d => d.configuration)
        = some (some "3d_fullres_big_patch") ∧
      predict_m_argument ≠ "3d_fullres_big_patch" := by
  refine ⟨rfl, rfl, by decide⟩

/-- C3 amended: for every model name with a task number, the invocation is
built from the input directory, the output directory and the derived task
number, but the configuration name is the fixed literal `3d_fullres` (with fold
argument `all`): the registry's `configuration` field is not consulted. -/
theorem predict_command_uses_fixed_configuration
    (model_name input_dir output_dir : String) (task_number : Nat)
    (h : map_model_name_to_task_number model_name = .ok task_number) :
    predict_effects model_name input_dir output_dir
      = .ok [Effect.setResultsFolderEnv,
             Effect.runSubprocess
               ("nnUNet_predict -i " ++ input_dir ++ " -o " ++ output_dir ++ " -t "
                 ++ toString task_number ++ " -m " ++ predict_m_argument ++ " -f all")] := by
  simp [predict_effects, h, nnUNet_predict_command]

/-- Witness for C3's amended theorem at `clin_ct_lungs` (task 205). -/
theorem predict_command_uses_fixed_configuration_witness :
    predict_effects "clin_ct_lungs" "/a" "/b"
      = .ok [Effect.setResultsFolderEnv,
             Effect.runSubprocess
               ("nnUNet_predict -i " ++ "/a" ++ " -o " ++ "/b" ++ " -t "
                 ++ toString 205 ++ " -m " ++ predict_m_argument ++ " -f all")] :=
  predict_command_uses_fixed_configuration "clin_ct_lungs" "/a" "/b" 205 rfl

/-- C4 counterexample: the entry `clin_pt_fdg_tumor` of `MODELS` carries
neither a URL nor a voxel spacing, so not every descriptor does. -/
theorem clin_pt_fdg_tumor_lacks_url_and_spacing :
    (registry_find MODELS "clin_pt_fdg_tumor").map (fun d => (d.url, d.voxel_spacing))
        = some (none, none) ∧
      ¬ ((MODELS.all (fun nd => nd.2.url.isSome && nd.2.voxel_spacing.isSome)) = true) := by
  exact ⟨rfl, by decide⟩

/-- C4 amended: `MODELS` holds 24 descriptors (approximately 25); every
descriptor carries a non-empty `organ_indices` map and a `limit_fov` field
whose value, when present, names another key of `MODELS`; every descriptor
except `clin_pt_fdg_tumor` carries a URL and a voxel spacing, and
`clin_pt_fdg_tumor` carries neither. -/
theorem MODELS_registry_shape :
    MODELS.length = 24 ∧
      (MODELS.all (fun nd => ! nd.2.organ_indices.isEmpty)) = true ∧
      (MODELS.all (fun nd =>
        match nd.2.limit_fov with
        | none => true
        | some lf => (registry_find MODELS lf.model_to_crop_from).isSome)) = true ∧
      (MODELS.all (fun nd =>
        nd.1 == "clin_pt_fdg_tumor" || (nd.2.url.isSome && nd.2.voxel_spacing.isSome))) = true ∧
      ((registry_find MODELS "clin_pt_fdg_tumor").map
          (fun d => (d.url.isSome, d.voxel_spacing.isSome))) = some (false, false) := by
  refine ⟨rfl, by decide, by decide, by decide, rfl⟩


/-- C5: the `limit_fov` crop relationships are inert data.  With the
module-level registry made explicit, any two runs of the program whose
registries differ only in their `limit_fov` values (two overrides of `MODELS`)
produce identical outputs for every operation - `main`, `predict`,
`run_prediction`, `map_model_name_to_task_number` and `expected_modality` -
and in particular identical external-process invocations. -/
theorem limit_fov_values_do_not_affect_runs
    (f g : String → Option LimitFov)
    (model_name model_path input_dir output_dir : String)
    (pre_effects setup_effects standardize_effects : List Effect)
    (input_dirs output_dirs : List String) :
    program_run (override_limit_fov MODELS f) model_name model_path input_dir output_dir
        pre_effects setup_effects standardize_effects input_dirs output_dirs
      = program_run (override_limit_fov MODELS g) model_name model_path input_dir output_dir
        pre_effects setup_effects standardize_effects input_dirs output_dirs := by
  simp [program_run, main_trace, download_model_effects_override]

/-- C6: `run_prediction` is a trivial sequential loop: for every pair of lists
it calls `predict` exactly once per `zip`-pair, in list order, each invocation
contributing its environment assignment and its single `nnUNet_predict`
subprocess call, one after the other, with nothing else in between. -/
theorem run_prediction_is_sequential_zip_loop
    (model_name : String) (task_number : Nat)
    (input_dirs output_dirs : List String)
    (h : map_model_name_to_task_number model_name = .ok task_number) :
    run_prediction model_name input_dirs output_dirs
      = .ok (((input_dirs.zip output_dirs).flatMap (fun p =>
            [Effect.setResultsFolderEnv,
             Effect.runSubprocess (nnUNet_predict_command p.1 p.2 task_number)]))
          ++ [Effect.print "Prediction complete"]) := by
  simp [run_prediction, run_prediction_loop_eq model_name task_number h]

/-- Witness for C6 at `clin_ct_lungs` over two directory pairs. -/
theorem run_prediction_is_sequential_zip_loop_witness :
    run_prediction "clin_ct_lungs" ["/i1", "/i2"] ["/o1", "/o2"]
      = .ok ((([("/i1", "/o1"), ("/i2", "/o2")] : List (String × String)).flatMap (fun p =>
            [Effect.setResultsFolderEnv,
             Effect.runSubprocess (nnUNet_predict_command p.1 p.2 205)]))
          ++ [Effect.print "Prediction complete"]) := by
  have h := run_prediction_is_sequential_zip_loop "clin_ct_lungs" 205
    ["/i1", "/i2"] ["/o1", "/o2"] rfl
  simpa using h

/-- C7: relocating results is not implemented.  The whole trace of `main` is
the pre-prediction phases followed by `run_prediction_section`, and that final
section consists of prints and log writes only: no file is moved or copied
(and no process is run) after standardization, so the subject folders are
untouched by the final phase. -/
theorem main_final_phase_moves_no_files
    (R : Registry) (model_name model_path : String)
    (pre_effects setup_effects standardize_effects : List Effect) :
    main_trace R model_name model_path pre_effects setup_effects standardize_effects
        = (pre_effects ++ download_model_effects R model_name model_path
            ++ setup_effects ++ standardize_effects) ++ run_prediction_section ∧
      (run_prediction_section.all (fun e => e.is_print_or_log)) = true := by
  refine ⟨?_, by decide⟩
  simp [main_trace]

/-- C8: model names accepted by the CLI whose modality lookup nevertheless
fails: `clin_ct_bones`, `clin_ct_vessels`, `clin_ct_all`, `clin_fdg_pt_ct_all`
and `clin_pt_fdg_tumor` are all among the argparse choices, yet
`expected_modality` returns the error dictionary for each of them. -/
theorem cli_choices_can_fail_modality_lookup :
    ("clin_ct_bones" ∈ cli_model_choices ∧ expected_modality "clin_ct_bones"
        = [("Error", "Requested model is not available. Please check the model name.")]) ∧
      ("clin_ct_vessels" ∈ cli_model_choices ∧ expected_modality "clin_ct_vessels"
        = [("Error", "Requested model is not available. Please check the model name.")]) ∧
      ("clin_ct_all" ∈ cli_model_choices ∧ expected_modality "clin_ct_all"
        = [("Error", "Requested model is not available. Please check the model name.")]) ∧
      ("clin_fdg_pt_ct_all" ∈ cli_model_choices ∧ expected_modality "clin_fdg_pt_ct_all"
        = [("Error", "Requested model is not available. Please check the model name.")]) ∧
      ("clin_pt_fdg_tumor" ∈ cli_model_choices ∧ expected_modality "clin_pt_fdg_tumor"
        = [("Error", "Requested model is not available. Please check the model name.")]) := by
  refine ⟨⟨by decide, rfl⟩, ⟨by decide, rfl⟩, ⟨by decide, rfl⟩, ⟨by decide, rfl⟩,
    ⟨by decide, rfl⟩⟩

/-- C9: on the twelve CLI choices the task mapping takes the twelve distinct
values 201 through 212 in order (hence it is injective there), and it raises -
returns `Except.error` - exactly on the names outside the twelve. -/
theorem map_model_name_bijective_on_cli_choices :
    cli_model_choices.map map_model_name_to_task_number
        = [.ok 201, .ok 202, .ok 203, .ok 204, .ok 205, .ok 206,
           .ok 207, .ok 208, .ok 209, .ok 210, .ok 211, .ok 212] ∧
      cli_model_choices.Pairwise (fun a b =>
        map_model_name_to_task_number a ≠ map_model_name_to_task_number b) ∧
      ∀ s : String,
        (∃ msg, map_model_name_to_task_number s = .error msg) ↔ s ∉ cli_model_choices := by
  have h1 : cli_model_choices.map map_model_name_to_task_number
      = [.ok 201, .ok 202, .ok 203, .ok 204, .ok 205, .ok 206,
         .ok 207, .ok 208, .ok 209, .ok 210, .ok 211, .ok 212] := by
    simp [cli_model_choices, map_model_name_to_task_number]
  refine ⟨h1, ?_, ?_⟩
  · have h2 : (cli_model_choices.map map_model_name_to_task_number).Pairwise (· ≠ ·) := by
      rw [h1]
      simp [List.pairwise_cons]
    exact List.pairwise_map.mp h2
  · intro s
    constructor
    · rintro ⟨msg, hmsg⟩ hmem
      have hin : map_model_name_to_task_number s
          ∈ cli_model_choices.map map_model_name_to_task_number :=
        List.mem_map_of_mem _ hmem
      rw [h1, hmsg] at hin
      simp at hin
    · intro hmem
      simp only [cli_model_choices, List.mem_cons, List.not_mem_nil, or_false, not_or] at hmem
      obtain ⟨n1, n2, n3, n4, n5, n6, n7, n8, n9, n10, n11, n12⟩ := hmem
      exact ⟨"Error: The model name \x27" ++ s ++ "\x27 is not valid.",
        by simp [map_model_name_to_task_number, n1, n2, n3, n4, n5, n6, n7, n8,
          n9, n10, n11, n12]⟩

/-- Witness for C9 at the non-CLI name `clin_ct_brain`. -/
theorem map_model_name_bijective_on_cli_choices_witness :
    (∃ msg, map_model_name_to_task_number "clin_ct_brain" = .error msg) ∧
      "clin_ct_brain" ∉ cli_model_choices := by
  have h := map_model_name_bijective_on_cli_choices.2.2 "clin_ct_brain"
  exact ⟨h.mpr (by decide), by decide⟩

/-- C10: the `limit_fov` dependency graph has depth one and no dangling
references: exactly three entries declare a crop source
(`clin_ct_liver_segments` from `clin_ct_fast_organs`, `clin_ct_aorta` from
`clin_ct_fast_cardiac`, `clin_ct_body_composition` from
`clin_ct_fast_vertebrae`), and each referenced model is a key of `MODELS` whose
own `limit_fov` is `None`. -/
theorem limit_fov_dependencies_depth_one :
    (MODELS.filterMap (fun nd =>
        nd.2.limit_fov.map (fun lf => (nd.1, lf.model_to_crop_from))))
        = [("clin_ct_liver_segments", "clin_ct_fast_organs"),
           ("clin_ct_aorta", "clin_ct_fast_cardiac"),
           ("clin_ct_body_composition", "clin_ct_fast_vertebrae")] ∧
      ((["clin_ct_fast_organs", "clin_ct_fast_cardiac", "clin_ct_fast_vertebrae"].all
          (fun n => match registry_find MODELS n with
            | some d => d.limit_fov.isNone
            | none => false))) = true := by
  exact ⟨rfl, rfl⟩

end Moosez
